import Mathlib

/-!
Verification of the job-fit-evaluator backend
(`src/job-fit-evaluator/backend/main.py`).

The development shallowly embeds the Python source: JSON values, the parts
of Python's `json` module the code relies on (`json.dumps` with default
separators, `json.loads`), `hashlib.sha256(...).hexdigest()` over the
UTF-8 encoding of a string, the string primitives `str.find`, `str.rfind`,
slicing and truthiness, the `cache_key` derivation, the verdict-parsing
block and the `/job-fit` request handler.  The external model gateway
(`requests.post` to Ollama plus `raise_for_status` and extraction of the
`response` field) is represented by its outcome, an `Except` carrying
either the raised exception's message or the generated text.
-/

/-- JSON values.  Numbers are modelled as integers: every numeric literal
appearing in the verified behaviours is integral, and no claim concerns
fractional numbers. -/
inductive Json where
  | null : Json
  | bool (b : Bool) : Json
  | num (n : Int) : Json
  | str (s : String) : Json
  | arr (xs : List Json) : Json
  | obj (kvs : List (String × Json)) : Json

/-- Escape one character the way Python's `json.dumps` does for the
characters that need it (quote, backslash, common control characters). -/
def jsonEscapeChar (c : Char) : List Char :=
  if c = '"' then ['\\', '"']
  else if c = '\\' then ['\\', '\\']
  else if c = '\n' then ['\\', 'n']
  else if c = '\t' then ['\\', 't']
  else if c = '\r' then ['\\', 'r']
  else [c]

/-- Serialization of a JSON string literal: quotes around the escaped body. -/
def jsonQuote (s : String) : String :=
  String.mk ('"' :: (s.toList.map jsonEscapeChar).flatten ++ ['"'])

mutual

/-- Model of Python `json.dumps` with the default separators
`(", ", ": ")`: objects keep their insertion order (no `sort_keys`). -/
def jdumps : Json → String
  | Json.null => "null"
  | Json.bool true => "true"
  | Json.bool false => "false"
  | Json.num n => toString n
  | Json.str s => jsonQuote s
  | Json.arr xs => "[" ++ jdumpsItems xs ++ "]"
  | Json.obj kvs => "\x7b" ++ jdumpsMembers kvs ++ "\x7d"

/-- Comma-joined serialization of array items. -/
def jdumpsItems : List Json → String
  | [] => ""
  | [x] => jdumps x
  | x :: y :: rest => jdumps x ++ ", " ++ jdumpsItems (y :: rest)

/-- Comma-joined serialization of object members (`"key": value`). -/
def jdumpsMembers : List (String × Json) → String
  | [] => ""
  | [(k, v)] => jsonQuote k ++ ": " ++ jdumps v
  | (k, v) :: m :: rest => jsonQuote k ++ ": " ++ jdumps v ++ ", " ++ jdumpsMembers (m :: rest)

end

/-- JSON whitespace, as accepted between tokens by Python's `json.loads`. -/
def isJsonWs (c : Char) : Bool :=
  c = ' ' || c = '\t' || c = '\n' || c = '\r'

/-- Drop leading JSON whitespace. -/
def skipWs : List Char → List Char
  | [] => []
  | c :: cs => if isJsonWs c then skipWs cs else c :: cs

/-- Parse the body of a JSON string after the opening quote, returning the
decoded characters and the remaining input.  Handles the single-character
escapes; fails on an unterminated string. -/
def parseStrBody : List Char → Option (List Char × List Char)
  | [] => none
  | '"' :: rest => some ([], rest)
  | '\\' :: e :: rest =>
      let esc : Option Char :=
        match e with
        | '"' => some '"'
        | '\\' => some '\\'
        | '/' => some '/'
        | 'n' => some '\n'
        | 't' => some '\t'
        | 'r' => some '\r'
        | 'b' => some (Char.ofNat 8)
        | 'f' => some (Char.ofNat 12)
        | _ => none
      esc.bind (fun c => (parseStrBody rest).map (fun p => (c :: p.1, p.2)))
  | c :: rest => (parseStrBody rest).map (fun p => (c :: p.1, p.2))

/-- Maximal leading run of decimal digits. -/
def takeDigits : List Char → (List Char × List Char)
  | [] => ([], [])
  | c :: cs =>
      if c.isDigit then
        let p := takeDigits cs
        (c :: p.1, p.2)
      else ([], c :: cs)

/-- Digit characters to the natural number they denote. -/
def digitsToNat (ds : List Char) : Nat :=
  ds.foldl (fun acc c => 10 * acc + (c.toNat - 48)) 0

/-- Parse a JSON integer literal (optional minus sign, no leading zeros),
as Python's `json.loads` accepts for integral numbers. -/
def parseIntLit : List Char → Option (Int × List Char)
  | '-' :: cs =>
      (parseIntLit cs).bind (fun p =>
        match p with
        | (Int.ofNat n, rest) => some (-(Int.ofNat n), rest)
        | _ => none)
  | cs =>
      let p := takeDigits cs
      match p.1 with
      | [] => none
      | [d] => some (Int.ofNat (d.toNat - 48), p.2)
      | d :: _ :: _ => if d = '0' then none else some (Int.ofNat (digitsToNat p.1), p.2)

mutual

/-- Fuel-indexed recursive-descent parser for one JSON value; returns the
value and the unconsumed input.  Mirrors what `json.loads` accepts on the
texts this program handles. -/
def parseVal : Nat → List Char → Option (Json × List Char)
  | 0, _ => none
  | fuel + 1, cs =>
      match skipWs cs with
      | [] => none
      | c :: rest =>
          if c = '"' then
            (parseStrBody rest).map (fun p => (Json.str (String.mk p.1), p.2))
          else if c = Char.ofNat 123 then
            match skipWs rest with
            | Char.ofNat 125 :: rest2 => some (Json.obj [], rest2)
            | other => (parseMembers fuel other).map (fun p => (Json.obj p.1, p.2))
          else if c = '[' then
            match skipWs rest with
            | ']' :: rest2 => some (Json.arr [], rest2)
            | other => (parseItems fuel other).map (fun p => (Json.arr p.1, p.2))
          else if c = 'n' then
            match rest with
            | 'u' :: 'l' :: 'l' :: rest2 => some (Json.null, rest2)
            | _ => none
          else if c = 't' then
            match rest with
            | 'r' :: 'u' :: 'e' :: rest2 => some (Json.bool true, rest2)
            | _ => none
          else if c = 'f' then
            match rest with
            | 'a' :: 'l' :: 's' :: 'e' :: rest2 => some (Json.bool false, rest2)
            | _ => none
          else
            (parseIntLit (c :: rest)).map (fun p => (Json.num p.1, p.2))

/-- Parse one or more `"key": value` object members separated by commas,
up to and including the closing brace. -/
def parseMembers : Nat → List Char → Option (List (String × Json) × List Char)
  | 0, _ => none
  | fuel + 1, cs =>
      match skipWs cs with
      | '"' :: rest =>
          (parseStrBody rest).bind (fun kp =>
            match skipWs kp.2 with
            | ':' :: rest2 =>
                (parseVal fuel rest2).bind (fun vp =>
                  match skipWs vp.2 with
                  | ',' :: rest3 =>
                      (parseMembers fuel rest3).map (fun mp =>
                        ((String.mk kp.1, vp.1) :: mp.1, mp.2))
                  | Char.ofNat 125 :: rest3 =>
                      some ([(String.mk kp.1, vp.1)], rest3)
                  | _ => none)
            | _ => none)
      | _ => none

/-- Parse one or more array items separated by commas, up to and
including the closing bracket. -/
def parseItems : Nat → List Char → Option (List Json × List Char)
  | 0, _ => none
  | fuel + 1, cs =>
      (parseVal fuel cs).bind (fun vp =>
        match skipWs vp.2 with
        | ',' :: rest => (parseItems fuel rest).map (fun ip => (vp.1 :: ip.1, ip.2))
        | ']' :: rest => some ([vp.1], rest)
        | _ => none)

end

/-- Model of Python `json.loads`: parse one JSON value and require that
only whitespace remains; any other outcome is a `JSONDecodeError`,
modelled as `none`. -/
def json_loads (s : String) : Option Json :=
  match parseVal (s.length + 1) s.toList with
  | some (j, rest) => if skipWs rest = [] then some j else none
  | none => none

example : json_loads "\x7b\"fit_score\": 80\x7d" = some (Json.obj [("fit_score", Json.num 80)]) := by rfl
example : json_loads "not json at all" = none := by rfl
example : json_loads "" = none := by rfl
example : json_loads " \x7b\"a\": [1, -2, true, null], \"b\": \"x\"\x7d " =
    some (Json.obj [("a", Json.arr [Json.num 1, Json.num (-2), Json.bool true, Json.null]),
                    ("b", Json.str "x")]) := by rfl
example : jdumps (Json.obj [("a", Json.num 1), ("b", Json.num 2)]) = "\x7b\"a\": 1, \"b\": 2\x7d" := by rfl
example : jdumps (Json.obj []) = "\x7b\x7d" := by rfl

/-! ## SHA-256 (`hashlib.sha256`) over byte lists, words as `Nat` mod 2^32 -/

/-- Truncating 32-bit addition. -/
def add32 (a b : Nat) : Nat := (a + b) % 4294967296

/-- 32-bit right rotation. -/
def rotr32 (n x : Nat) : Nat := ((x >>> n) ||| (x <<< (32 - n))) &&& 0xffffffff

/-- SHA-256 Σ₀. -/
def bsig0 (x : Nat) : Nat := rotr32 2 x ^^^ rotr32 13 x ^^^ rotr32 22 x

/-- SHA-256 Σ₁. -/
def bsig1 (x : Nat) : Nat := rotr32 6 x ^^^ rotr32 11 x ^^^ rotr32 25 x

/-- SHA-256 σ₀. -/
def ssig0 (x : Nat) : Nat := rotr32 7 x ^^^ rotr32 18 x ^^^ (x >>> 3)

/-- SHA-256 σ₁. -/
def ssig1 (x : Nat) : Nat := rotr32 17 x ^^^ rotr32 19 x ^^^ (x >>> 10)

/-- SHA-256 Ch. -/
def sha2Ch (e f g : Nat) : Nat := (e &&& f) ^^^ ((0xffffffff ^^^ e) &&& g)

/-- SHA-256 Maj. -/
def sha2Maj (a b c : Nat) : Nat := (a &&& b) ^^^ (a &&& c) ^^^ (b &&& c)

/-- The 64 SHA-256 round constants (FIPS 180-4 §4.2.2, written in
decimal). -/
def sha2K : List Nat :=
  [1116352408, 1899447441, 3049323471, 3921009573, 961987163, 1508970993,
   2453635748, 2870763221, 3624381080, 310598401, 607225278, 1426881987,
   1925078388, 2162078206, 2614888103, 3248222580, 3835390401, 4022224774,
   264347078, 604807628, 770255983, 1249150122, 1555081692, 1996064986,
   2554220882, 2821834349, 2952996808, 3210313671, 3336571891, 3584528711,
   113926993, 338241895, 666307205, 773529912, 1294757372, 1396182291,
   1695183700, 1986661051, 2177026350, 2456956037, 2730485921, 2820302411,
   3259730800, 3345764771, 3516065817, 3600352804, 4094571909, 275423344,
   430227734, 506948616, 659060556, 883997877, 958139571, 1322822218,
   1537002063, 1747873779, 1955562222, 2024104815, 2227730452, 2361852424,
   2428436474, 2756734187, 3204031479, 3329325298]

/-- The 8 SHA-256 initial hash values (FIPS 180-4 §5.3.3, in decimal). -/
def sha2H0 : List Nat :=
  [1779033703, 3144134277, 1013904242, 2773480762,
   1359893119, 2600822924, 528734635, 1541459225]

/-- Group bytes into big-endian 32-bit words (input length a multiple of 4). -/
def bytesToWords : List Nat → List Nat
  | b0 :: b1 :: b2 :: b3 :: rest =>
      ((b0 <<< 24) ||| (b1 <<< 16) ||| (b2 <<< 8) ||| b3) :: bytesToWords rest
  | _ => []

/-- Extend 16 message-schedule words to 64. -/
def extendSchedule (w : List Nat) : List Nat :=
  (List.range 48).foldl
    (fun w i =>
      w ++ [add32 (add32 (ssig1 (w.getD (i + 14) 0)) (w.getD (i + 9) 0))
                  (add32 (ssig0 (w.getD (i + 1) 0)) (w.getD i 0))])
    w

/-- One round of the SHA-256 compression function on the state
`[a, b, c, d, e, f, g, h]` with round constant `k` and schedule word `wi`. -/
def sha2Round (s : List Nat) (k wi : Nat) : List Nat :=
  match s with
  | [a, b, c, d, e, f, g, h] =>
      let t1 := add32 h (add32 (bsig1 e) (add32 (sha2Ch e f g) (add32 k wi)))
      let t2 := add32 (bsig0 a) (sha2Maj a b c)
      [add32 t1 t2, a, b, c, add32 d t1, e, f, g]
  | _ => s

/-- Process one 64-byte block: run the 64 rounds and add into the chaining
state. -/
def sha2Block (h : List Nat) (block : List Nat) : List Nat :=
  let w := extendSchedule (bytesToWords block)
  let s := (sha2K.zip w).foldl (fun s kw => sha2Round s kw.1 kw.2) h
  List.zipWith add32 h s

/-- The 8-byte big-endian encoding of a (64-bit) length in bits. -/
def be64 (n : Nat) : List Nat :=
  [(n >>> 56) &&& 255, (n >>> 48) &&& 255, (n >>> 40) &&& 255, (n >>> 32) &&& 255,
   (n >>> 24) &&& 255, (n >>> 16) &&& 255, (n >>> 8) &&& 255, n &&& 255]

/-- SHA-256 padding: a 0x80 byte, zeros to 56 mod 64, then the bit length. -/
def sha2Pad (msg : List Nat) : List Nat :=
  let l := msg.length
  let zeros := (119 - l % 64) % 64
  msg ++ [0x80] ++ List.replicate zeros 0 ++ be64 (8 * l)

/-- Split into 64-byte blocks (fuel-indexed; called with enough fuel). -/
def chunks64 : Nat → List Nat → List (List Nat)
  | 0, _ => []
  | _, [] => []
  | fuel + 1, l => l.take 64 :: chunks64 fuel (l.drop 64)

/-- SHA-256 of a byte list: the final chaining state as 8 words. -/
def sha256 (msg : List Nat) : List Nat :=
  let padded := sha2Pad msg
  (chunks64 padded.length padded).foldl sha2Block sha2H0

/-- Hex character for a nibble (lowercase, as `hexdigest` renders). -/
def hexChar (n : Nat) : Char :=
  if n < 10 then Char.ofNat (48 + n) else Char.ofNat (87 + n)

/-- Lowercase-hex rendering of one 32-bit word. -/
def wordToHex (n : Nat) : List Char :=
  [hexChar ((n >>> 28) &&& 15), hexChar ((n >>> 24) &&& 15),
   hexChar ((n >>> 20) &&& 15), hexChar ((n >>> 16) &&& 15),
   hexChar ((n >>> 12) &&& 15), hexChar ((n >>> 8) &&& 15),
   hexChar ((n >>> 4) &&& 15), hexChar (n &&& 15)]

/-- `hashlib.sha256(bytes).hexdigest()`: the 64-character lowercase hex
digest. -/
def sha256hex (msg : List Nat) : String :=
  String.mk ((sha256 msg).map wordToHex).flatten

/-- UTF-8 encoding of one character (model of `str.encode()` per char). -/
def utf8Char (c : Char) : List Nat :=
  let n := c.toNat
  if n < 0x80 then [n]
  else if n < 0x800 then
    [0xc0 ||| (n >>> 6), 0x80 ||| (n &&& 63)]
  else if n < 0x10000 then
    [0xe0 ||| (n >>> 12), 0x80 ||| ((n >>> 6) &&& 63), 0x80 ||| (n &&& 63)]
  else
    [0xf0 ||| (n >>> 18), 0x80 ||| ((n >>> 12) &&& 63),
     0x80 ||| ((n >>> 6) &&& 63), 0x80 ||| (n &&& 63)]

/-- Model of Python `str.encode()`: UTF-8 bytes of the string. -/
def utf8Encode (s : String) : List Nat :=
  (s.toList.map utf8Char).flatten

example : sha256hex (utf8Encode "abc") =
    "ba7816bf8f01cfea414140de5dae2223b00361a396177a9cb410ff61f20015ad" := by decide
example : sha256hex (utf8Encode "") =
    "e3b0c44298fc1c149afbf4c8996fb92427ae41e4649b934ca495991b7852b855" := by decide

/-! ## Python string primitives used by `main.py` -/

/-- Python truthiness of an optional string field (`if not req.resume`,
`if data.resume`): `None` and the empty string are falsy. -/
def pyTruthyStr : Option String → Bool
  | none => false
  | some s => !s.toList.isEmpty

/-- Python `s[:n]`: the first `n` characters. -/
def pyTake (n : Nat) (s : String) : String :=
  String.mk (s.toList.take n)

/-- Index of the first occurrence of `c` in a character list, or `-1`
(Python `str.find`). -/
def pyFindAux (t : Char) : List Char → Int
  | [] => -1
  | c :: cs =>
      if c = t then 0
      else
        let r := pyFindAux t cs
        if r = -1 then -1 else r + 1

/-- Python `s.find(c)`. -/
def pyFind (s : String) (t : Char) : Int := pyFindAux t s.toList

/-- Index of the last occurrence of `c` in a character list, or `-1`
(Python `str.rfind`). -/
def pyRfindAux (t : Char) : List Char → Int
  | [] => -1
  | c :: cs =>
      let r := pyRfindAux t cs
      if r = -1 then (if c = t then 0 else -1) else r + 1

/-- Python `s.rfind(c)`. -/
def pyRfind (s : String) (t : Char) : Int := pyRfindAux t s.toList

/-- Python `s[a:b]` for the nonnegative indices arising at the call site
(`a = s.find(...) ≥ 0`, `b = s.rfind(...) + 1 ≥ 0`). -/
def pySlice (s : String) (a b : Int) : String :=
  String.mk ((s.toList.drop a.toNat).take (b.toNat - a.toNat))

example : pyFind "ab\x7bc" (Char.ofNat 123) = 2 := by rfl
example : pyFind "abc" (Char.ofNat 123) = -1 := by rfl
example : pyRfind "a\x7db\x7dc" (Char.ofNat 125) = 3 := by rfl
example : pyRfind "abc" (Char.ofNat 125) = -1 := by rfl
example : pySlice "abcdef" 1 4 = "bcd" := by rfl
example : pySlice "abcdef" 2 2 = "" := by rfl

/-! ## The data model and `cache_key` (main.py lines 23–36) -/

/-- `FitRequest` (main.py lines 23–26): `resume: str = None`,
`preferences: dict = None`, `job: str`.  A Python `dict` is modelled as an
insertion-ordered association list, which is exactly the order
`json.dumps` serializes it in. -/
structure FitRequest where
  resume : Option String
  preferences : Option (List (String × Json))
  job : String

/-- The resume component of the key:
`data.resume[:50] if data.resume else "no-resume"` (main.py line 33). -/
def resumePart (resume : Option String) : String :=
  if pyTruthyStr resume then pyTake 50 (resume.getD "") else "no-resume"

/-- `cache_key` (main.py lines 31–36): SHA-256 hex digest of the UTF-8
bytes of `resume_part + json.dumps(data.preferences or {}) + data.job`.
`job_part = data.job[:50]` is computed by the source but never used in
`raw`; it is kept here for fidelity.  `data.preferences or \x7b\x7d`
yields the empty dict when `preferences` is `None` (and an empty dict is
unchanged by it), which `Option.getD []` reproduces. -/
def cache_key (data : FitRequest) : String :=
  let resume_part := resumePart data.resume
  let _job_part := pyTake 50 data.job
  let raw := resume_part ++ jdumps (Json.obj (data.preferences.getD [])) ++ data.job
  sha256hex (utf8Encode raw)

/-! ## The verdict-parsing block (main.py lines 142–152) -/

/-- The sentinel error object `\x7b"error": "invalid_json", "raw": text\x7d`
(main.py line 152). -/
def sentinelError (text : String) : Json :=
  Json.obj [("error", Json.str "invalid_json"), ("raw", Json.str text)]

/-- The parse of the model output (main.py lines 142–152), executed inside
the handler's `try` block.  `json.loads(text)` first; on
`JSONDecodeError`, `start = text.find("\x7b")`,
`end = text.rfind("\x7d") + 1`, and if `start != -1 and end != -1` the
substring `text[start:end]` is reparsed — a reparse failure raises
`JSONDecodeError` out of the `except` block (modelled as `Except.error`
carrying the exception's message `str(e)`); only when the guard fails is
the sentinel object produced. -/
def parseVerdict (text : String) : Except String Json :=
  match json_loads text with
  | some parsed => Except.ok parsed
  | none =>
      let start := pyFind text (Char.ofNat 123)
      let stop := pyRfind text (Char.ofNat 125) + 1
      if start ≠ -1 ∧ stop ≠ -1 then
        match json_loads (pySlice text start stop) with
        | some parsed => Except.ok parsed
        | none => Except.error "Expecting value: JSONDecodeError"
      else
        Except.ok (sentinelError text)

/-! ## The request handler (main.py lines 104–159) -/

/-- The collaborators a request actually invokes, in order: the cache
lookup (line 112), the prompt build (line 116), the gateway call
(lines 124–138) and the verdict parse (lines 142–152). -/
inductive Step where
  | cacheLookup : Step
  | buildPrompt : Step
  | callGateway : Step
  | parseStep : Step
deriving DecidableEq

/-- An HTTP outcome of the handler: a 200 body, or an `HTTPException`
with a status code and `detail` message. -/
inductive HResp where
  | ok (body : Json) : HResp
  | httpError (status : Nat) (detail : String) : HResp

/-- The response cache `CACHE` (main.py line 20): a string-keyed mapping.
Prepending on write gives exactly the lookup behaviour of Python's
`CACHE[key] = parsed`. -/
def lookupC (k : String) : List (String × Json) → Option Json
  | [] => none
  | (k2, v) :: rest => if k2 == k then some v else lookupC k rest

/-- What a call to `job_fit` produces: the HTTP outcome, the cache state
after the call, and the ordered list of collaborators invoked. -/
structure HResult where
  resp : HResp
  cache : List (String × Json)
  steps : List Step

/-- The `/job-fit` handler (main.py lines 104–159), parameterized by the
cache state and by the outcome of the model-gateway call
(`requests.post` + `raise_for_status` + `r.json().get("response", "")`):
`Except.error e` is a raised request exception with message `str(e)`,
`Except.ok text` is the extracted generated text.  Any exception inside
the `try` — gateway or fallback reparse — becomes
`HTTPException(status_code=500, detail=str(e))`. -/
def job_fit (req : FitRequest) (cache : List (String × Json))
    (gateway : Except String String) : HResult :=
  if !pyTruthyStr req.resume then
    { resp := HResp.ok (Json.obj [("error", Json.str "Resume text is required")]),
      cache := cache, steps := [] }
  else
    let key := cache_key req
    match lookupC key cache with
    | some v => { resp := HResp.ok v, cache := cache, steps := [Step.cacheLookup] }
    | none =>
        match gateway with
        | Except.error e =>
            { resp := HResp.httpError 500 e, cache := cache,
              steps := [Step.cacheLookup, Step.buildPrompt, Step.callGateway] }
        | Except.ok text =>
            match parseVerdict text with
            | Except.ok parsed =>
                { resp := HResp.ok parsed, cache := (key, parsed) :: cache,
                  steps := [Step.cacheLookup, Step.buildPrompt, Step.callGateway, Step.parseStep] }
            | Except.error e =>
                { resp := HResp.httpError 500 e, cache := cache,
                  steps := [Step.cacheLookup, Step.buildPrompt, Step.callGateway, Step.parseStep] }

/-! ## Shared concrete requests and helper lemmas -/

/-- A minimal well-formed request: resume `"r"`, no preferences, job `"j"`. -/
def reqSample : FitRequest :=
  { resume := some "r", preferences := none, job := "j" }

/-- Same request but with preferences inserted in order `a, b`. -/
def reqPrefsAB : FitRequest :=
  { resume := some "r", preferences := some [("a", Json.num 1), ("b", Json.num 2)], job := "j" }

/-- Same key-value pairs inserted in order `b, a`. -/
def reqPrefsBA : FitRequest :=
  { resume := some "r", preferences := some [("b", Json.num 2), ("a", Json.num 1)], job := "j" }

/-- A lookup on a cache whose head holds the key returns the head value. -/
theorem lookupC_cons_self (k : String) (v : Json) (c : List (String × Json)) :
    lookupC k ((k, v) :: c) = some v := by
  simp [lookupC]

/-- Fifty is positive, so taking 50 characters preserves emptiness. -/
theorem take50_isEmpty (l : List Char) : (l.take 50).isEmpty = l.isEmpty := by
  cases l with
  | nil => rfl
  | cons c cs => rfl

/-- The resume component of the key depends only on the first 50
characters of a present resume. -/
theorem resumePart_congr_take (s1 s2 : String)
    (h : s1.toList.take 50 = s2.toList.take 50) :
    resumePart (some s1) = resumePart (some s2) := by
  have he : s1.toList.isEmpty = s2.toList.isEmpty := by
    rw [← take50_isEmpty s1.toList, ← take50_isEmpty s2.toList, h]
  simp only [resumePart, pyTruthyStr, pyTake, Option.getD_some]
  rw [h, he]

/-- A truthy resume and a cache hit make the handler return the stored
value with only the cache lookup performed. -/
theorem job_fit_hit (req : FitRequest) (cache : List (String × Json))
    (gateway : Except String String) (v : Json)
    (hres : pyTruthyStr req.resume = true)
    (hhit : lookupC (cache_key req) cache = some v) :
    job_fit req cache gateway =
      { resp := HResp.ok v, cache := cache, steps := [Step.cacheLookup] } := by
  simp [job_fit, hres, hhit]

/-! ## The claims -/

/-- C2: the Verdict Parser returns directly valid JSON parsed unchanged;
extracts the object between the first `\x7b` and the last `\x7d` when the
JSON is wrapped in prose; and returns the sentinel
`\x7b"error": "invalid_json", "raw": <text>\x7d` on text with no
brace-delimited region. -/
theorem C2_verdict_parser_cases :
    parseVerdict "\x7b\"fit_score\": 80, \"fit_level\": \"good\"\x7d" =
      Except.ok (Json.obj [("fit_score", Json.num 80), ("fit_level", Json.str "good")]) ∧
    parseVerdict "Sure! \x7b\"fit_score\": 80\x7d Hope that helps!" =
      Except.ok (Json.obj [("fit_score", Json.num 80)]) ∧
    parseVerdict "not json at all" =
      Except.ok (Json.obj [("error", Json.str "invalid_json"),
                           ("raw", Json.str "not json at all")]) :=
  ⟨rfl, rfl, rfl⟩

/-- C1 (refuted as stated — the code diverges from the spec's intent):
on gateway text `"\x7b"`, direct parsing fails, the fallback guard
`start != -1 and end != -1` passes (because `end = rfind + 1` can never
be `-1`), the reparse of the empty slice raises `JSONDecodeError`, and
the handler converts the propagated exception into an HTTP 500 — the
sentinel object is NOT returned. -/
theorem C1_parse_failure_becomes_500 :
    parseVerdict "\x7b" = Except.error "Expecting value: JSONDecodeError" ∧
    job_fit reqSample [] (Except.ok "\x7b") =
      { resp := HResp.httpError 500 "Expecting value: JSONDecodeError", cache := [],
        steps := [Step.cacheLookup, Step.buildPrompt, Step.callGateway, Step.parseStep] } :=
  ⟨rfl, rfl⟩

/-- C3: when the gateway raises with message `e` on a cache miss, the
handler returns HTTP 500 with `detail = e` and the cache is unchanged. -/
theorem C3_gateway_error_500_cache_unchanged (req : FitRequest)
    (cache : List (String × Json)) (e : String)
    (hres : pyTruthyStr req.resume = true)
    (hmiss : lookupC (cache_key req) cache = none) :
    job_fit req cache (Except.error e) =
      { resp := HResp.httpError 500 e, cache := cache,
        steps := [Step.cacheLookup, Step.buildPrompt, Step.callGateway] } := by
  simp [job_fit, hres, hmiss]

/-- C3 witness: a concrete timeout on an empty cache. -/
theorem C3_witness :
    pyTruthyStr reqSample.resume = true ∧
    lookupC (cache_key reqSample) [] = none ∧
    job_fit reqSample [] (Except.error "timeout") =
      { resp := HResp.httpError 500 "timeout", cache := [],
        steps := [Step.cacheLookup, Step.buildPrompt, Step.callGateway] } :=
  ⟨rfl, rfl, C3_gateway_error_500_cache_unchanged reqSample [] "timeout" rfl rfl⟩

/-- C4: an absent resume is rejected with a 200 body
`\x7b"error": "Resume text is required"\x7d` before any collaborator —
cache lookup included — is invoked, and without raising. -/
theorem C4_missing_resume_rejected (prefs : Option (List (String × Json)))
    (job : String) (cache : List (String × Json)) (gateway : Except String String) :
    job_fit { resume := none, preferences := prefs, job := job } cache gateway =
      { resp := HResp.ok (Json.obj [("error", Json.str "Resume text is required")]),
        cache := cache, steps := [] } :=
  rfl

/-- C5: a cache hit returns the stored verdict verbatim, performs only the
cache lookup (no prompt build, no gateway call, no parse), and leaves the
cache unchanged. -/
theorem C5_cache_hit_short_circuits (req : FitRequest) (cache : List (String × Json))
    (gateway : Except String String) (v : Json)
    (hres : pyTruthyStr req.resume = true)
    (hhit : lookupC (cache_key req) cache = some v) :
    job_fit req cache gateway =
      { resp := HResp.ok v, cache := cache, steps := [Step.cacheLookup] } :=
  job_fit_hit req cache gateway v hres hhit

/-- C5 witness: a concrete one-entry cache holding the request's key. -/
theorem C5_witness :
    pyTruthyStr reqSample.resume = true ∧
    lookupC (cache_key reqSample) [(cache_key reqSample, Json.str "cached")] =
      some (Json.str "cached") ∧
    job_fit reqSample [(cache_key reqSample, Json.str "cached")] (Except.error "down") =
      { resp := HResp.ok (Json.str "cached"),
        cache := [(cache_key reqSample, Json.str "cached")],
        steps := [Step.cacheLookup] } :=
  ⟨rfl, lookupC_cons_self _ _ _,
   C5_cache_hit_short_circuits reqSample _ _ _ rfl (lookupC_cons_self _ _ _)⟩

/-- C6: the key derivation is a deterministic function: two requests with
present resumes agreeing on the first 50 characters, equal preferences
and equal job text get identical keys. -/
theorem C6_cache_key_deterministic (r1 r2 : FitRequest) (s1 s2 : String)
    (h1 : r1.resume = some s1) (h2 : r2.resume = some s2)
    (hpre : s1.toList.take 50 = s2.toList.take 50)
    (hp : r1.preferences = r2.preferences) (hj : r1.job = r2.job) :
    cache_key r1 = cache_key r2 := by
  have hr : resumePart r1.resume = resumePart r2.resume := by
    rw [h1, h2]; exact resumePart_congr_take s1 s2 hpre
  simp [cache_key, hr, hp, hj]

/-- C6 witness: two structurally equal concrete requests. -/
theorem C6_witness :
    cache_key { resume := some "hello", preferences := none, job := "j" } =
      cache_key { resume := some "hello", preferences := none, job := "j" } :=
  C6_cache_key_deterministic _ _ "hello" "hello" rfl rfl rfl rfl rfl

/-- C7: two requests whose present resumes share the first 50 characters
but differ afterwards, with equal preferences and job, still get
identical keys — the documented truncation imprecision. -/
theorem C7_truncation_collision (r1 r2 : FitRequest) (s1 s2 : String)
    (h1 : r1.resume = some s1) (h2 : r2.resume = some s2)
    (hpre : s1.toList.take 50 = s2.toList.take 50)
    (_hdiff : s1 ≠ s2)
    (hp : r1.preferences = r2.preferences) (hj : r1.job = r2.job) :
    cache_key r1 = cache_key r2 := by
  have hr : resumePart r1.resume = resumePart r2.resume := by
    rw [h1, h2]; exact resumePart_congr_take s1 s2 hpre
  simp [cache_key, hr, hp, hj]

/-- C7 witness: two 52-character resumes agreeing on the first 50
characters and differing at position 51. -/
theorem C7_witness :
    cache_key { resume := some "aaaaaaaaaaaaaaaaaaaaaaaaaaaaaaaaaaaaaaaaaaaaaaaaaaXY",
                preferences := none, job := "j" } =
      cache_key { resume := some "aaaaaaaaaaaaaaaaaaaaaaaaaaaaaaaaaaaaaaaaaaaaaaaaaaZW",
                  preferences := none, job := "j" } :=
  C7_truncation_collision _ _ _ _ rfl rfl (by decide) (by decide) rfl rfl

/-- C8: a present-but-empty resume is rejected exactly like an absent
one — `not req.resume` tests truthiness, and `""` is falsy — with the
same 200 error body, no collaborator invoked, and no exception. -/
theorem C8_empty_resume_rejected (prefs : Option (List (String × Json)))
    (job : String) (cache : List (String × Json)) (gateway : Except String String) :
    job_fit { resume := some "", preferences := prefs, job := job } cache gateway =
      job_fit { resume := none, preferences := prefs, job := job } cache gateway ∧
    job_fit { resume := some "", preferences := prefs, job := job } cache gateway =
      { resp := HResp.ok (Json.obj [("error", Json.str "Resume text is required")]),
        cache := cache, steps := [] } :=
  ⟨rfl, rfl⟩

/-- C9: on a cache miss whose parse stage succeeds with `v` — the sentinel
object included, since `v` ranges over every `parseVerdict` success — the
handler returns 200 with `v`, stores `v` under the request's key, and an
identical follow-up request is served from the cache with only a lookup,
whatever the gateway would now do. -/
theorem C9_success_caches_and_replays (req : FitRequest)
    (cache : List (String × Json)) (text : String) (v : Json)
    (hres : pyTruthyStr req.resume = true)
    (hmiss : lookupC (cache_key req) cache = none)
    (hparse : parseVerdict text = Except.ok v) :
    (job_fit req cache (Except.ok text)).resp = HResp.ok v ∧
    (job_fit req cache (Except.ok text)).cache = (cache_key req, v) :: cache ∧
    lookupC (cache_key req) (job_fit req cache (Except.ok text)).cache = some v ∧
    ∀ gateway2, job_fit req (job_fit req cache (Except.ok text)).cache gateway2 =
      { resp := HResp.ok v, cache := (cache_key req, v) :: cache,
        steps := [Step.cacheLookup] } := by
  have hjf : job_fit req cache (Except.ok text) =
      { resp := HResp.ok v, cache := (cache_key req, v) :: cache,
        steps := [Step.cacheLookup, Step.buildPrompt, Step.callGateway, Step.parseStep] } := by
    simp [job_fit, hres, hmiss, hparse]
  refine ⟨by rw [hjf], by rw [hjf], by rw [hjf]; exact lookupC_cons_self _ _ _, ?_⟩
  intro gateway2
  rw [hjf]
  exact job_fit_hit req _ gateway2 v hres (lookupC_cons_self _ _ _)

/-- C9 witness: the full pipeline on unparseable model output caches the
sentinel object and replays it from the cache. -/
theorem C9_witness :
    pyTruthyStr reqSample.resume = true ∧
    lookupC (cache_key reqSample) [] = none ∧
    parseVerdict "not json at all" = Except.ok (sentinelError "not json at all") ∧
    (job_fit reqSample [] (Except.ok "not json at all")).resp =
      HResp.ok (sentinelError "not json at all") ∧
    ∀ gateway2, job_fit reqSample (job_fit reqSample [] (Except.ok "not json at all")).cache gateway2 =
      { resp := HResp.ok (sentinelError "not json at all"),
        cache := [(cache_key reqSample, sentinelError "not json at all")],
        steps := [Step.cacheLookup] } := by
  have h := C9_success_caches_and_replays reqSample [] "not json at all"
    (sentinelError "not json at all") rfl rfl rfl
  exact ⟨rfl, rfl, rfl, h.1, h.2.2.2⟩

/-- C10: two requests with the same resume and job whose preferences hold
the same key-value pairs in a different insertion order produce different
cache keys, because `json.dumps` serializes a dict in insertion order
(no `sort_keys`). -/
theorem C10_preference_order_changes_key :
    (reqPrefsAB.preferences.getD []).Perm (reqPrefsBA.preferences.getD []) ∧
    reqPrefsAB.resume = reqPrefsBA.resume ∧
    reqPrefsAB.job = reqPrefsBA.job ∧
    cache_key reqPrefsAB ≠ cache_key reqPrefsBA :=
  ⟨List.Perm.swap ("b", Json.num 2) ("a", Json.num 1) [], rfl, rfl, by decide⟩
